import Mathlib

/-
Verification development for rollup_rotator.py (rollup-rotator).

The Python module probes JSON-RPC endpoints, scores them by latency and
chain-head drift, ranks them, and persists a sticky selection.  This file
embeds the pure core of that module in Lean:

* network I/O is modelled by an oracle `Net` mapping each URL to the
  response the network would deliver (a transport failure or a body,
  together with the measured wall-clock latency);
* Python floats are modelled by exact rationals, and Python's
  `round(x, n)` by decimal rounding half-to-even (`rhe`);
* Python's `json` module is modelled by a codec on `FileText`: the values
  this program writes (ints, finite floats, strings, flat objects)
  round-trip exactly through Python's JSON encoding, while arbitrary
  other file contents may fail to parse (constructor `invalidText`);
* `random.shuffle` is modelled by passing the shuffled list as an
  explicit argument, constrained in theorems to be a permutation of the
  candidate list;
* the filesystem is a map from path to optional file content, with
  `os.replace` as the atomic move it performs on that map.

All other definitions are direct transcriptions of the corresponding
Python functions, keeping their names (leading underscores dropped).
-/

namespace RollupRotator

/-! ## String constants appearing in the source -/

def kError : String := "error"

def kResult : String := "result"

def kMessage : String := "message"

def kPickedAt : String := "picked_at"

def kUrl : String := "url"

def kScore : String := "score"

def kLatMs : String := "lat_ms"

def kHead : String := "head"

def tmpSuffix : String := ".tmp"

def msgNoEndpoints : String := "No endpoints."

def msgPicked : String := "Picked: "

def msgUnexpected : String := "unexpected: "

def msgDecodeErr : String := "json decode error"

/-! ## Module-level constants (rollup_rotator.py lines 31-33) -/

def TIMEOUT_SEC : ℚ := 6

def HEAD_SKEW_OK : ℤ := 3

def LAT_BUDGET_MS : ℚ := 1200

/-! ## JSON values

Python `json` values: `null`, booleans, ints, floats, strings, arrays,
objects (Python dicts, here ordered key/value lists; the dicts produced by
`json.loads` have unique keys and lookups return the first match). -/

inductive Json where
  | null : Json
  | bool (b : Bool) : Json
  | int (n : ℤ) : Json
  | num (q : ℚ) : Json
  | str (s : String) : Json
  | arr (elems : List Json) : Json
  | obj (fields : List (String × Json)) : Json

/-- Python dict access `fields[k]` / `k in fields` / `fields.get(k)`:
lookup of the first binding of key `k`. -/
def jsonLookup (fields : List (String × Json)) (k : String) : Option Json :=
  match fields with
  | [] => none
  | (k2, v) :: rest => if k2 = k then some v else jsonLookup rest k

/-! ## The filesystem and Python's json codec

A file's content is either the serialization of a JSON value (anything
`json.dump` wrote, which `json.load` parses back to the same value — the
values this program writes round-trip exactly) or text that is not valid
JSON, on which `json.load` raises. -/

inductive FileText where
  | jsonText (j : Json) : FileText
  | invalidText (s : String) : FileText

/-- The filesystem: each path maps to its content, or `none` if absent. -/
def FS : Type := String → Option FileText

/-- Model of `json.load` on a file's text: parses serialized JSON back to
the value, raises (`Except.error`) on anything else. -/
def pyJsonLoads : FileText → Except String Json
  | .jsonText j => .ok j
  | .invalidText _ => .error msgDecodeErr

/-- Model of `json.dump`: serializes the value. -/
def pyJsonDumps (j : Json) : FileText := .jsonText j

/-- Point update of the filesystem map (a single write / delete). -/
def fsWrite (fs : FS) (p : String) (c : Option FileText) : FS :=
  fun q => if q = p then c else fs q

/-- Model of `_load(path)` (rollup_rotator.py lines 66-70): `{}` if the file does
not exist, otherwise `json.load` of its contents — which raises on
malformed contents. -/
def load (fs : FS) (path : String) : Except String Json :=
  match fs path with
  | none => .ok (Json.obj [])
  | some t => pyJsonLoads t

/-- Model of `_save(obj, path)` (rollup_rotator.py lines 72-76): write
`json.dump(obj)` to `path + ".tmp"`, then `os.replace` the temp file onto
`path` (the target receives the temp file's content and the temp entry is
removed). -/
def save (fs : FS) (obj : Json) (path : String) : FS :=
  let tmp := path ++ tmpSuffix
  let fs1 := fsWrite fs tmp (some (pyJsonDumps obj))
  fsWrite (fsWrite fs1 path (fs1 tmp)) tmp none

/-! ## Python's `int(x, 16)`

`_hex_to_int` calls `int(x, 16)`.  For a string argument Python strips
surrounding whitespace, allows one optional sign, an optional `0x`/`0X`
prefix, and hexadecimal digits with single underscores between digits
(also one directly after the prefix); anything else raises `ValueError`,
and any non-string argument raises `TypeError`.  ASCII digits and
whitespace are modelled (the program's inputs are RPC hex strings). -/

def isPySpace (c : Char) : Bool :=
  c.toNat = 32 ∨ c.toNat = 9 ∨ c.toNat = 10 ∨ c.toNat = 13 ∨ c.toNat = 11 ∨ c.toNat = 12

/-- Value of one hexadecimal digit (`0-9`, `a-f`, `A-F`). -/
def hexVal (c : Char) : Option Nat :=
  if 48 ≤ c.toNat ∧ c.toNat ≤ 57 then some (c.toNat - 48)
  else if 97 ≤ c.toNat ∧ c.toNat ≤ 102 then some (c.toNat - 87)
  else if 65 ≤ c.toNat ∧ c.toNat ≤ 70 then some (c.toNat - 55)
  else none

/-- Digits after the first one: `(["_"] digit)*` (an underscore, char 95,
must be followed by a digit). -/
def hexDigitsGo (acc : Nat) : List Char → Option Nat
  | [] => some acc
  | c :: rest =>
    if c.toNat = 95 then
      match rest with
      | [] => none
      | d :: rest2 =>
        match hexVal d with
        | some v => hexDigitsGo (acc * 16 + v) rest2
        | none => none
    else
      match hexVal c with
      | some v => hexDigitsGo (acc * 16 + v) rest
      | none => none

/-- Grammar rule `digitpart ::= digit (["_"] digit)*`. -/
def hexDigits : List Char → Option Nat
  | [] => none
  | c :: rest =>
    match hexVal c with
    | some v => hexDigitsGo v rest
    | none => none

/-- After the `0x` prefix one leading underscore is allowed. -/
def hexAfterPrefix : List Char → Option Nat
  | [] => none
  | c :: rest => if c.toNat = 95 then hexDigits rest else hexDigits (c :: rest)

/-- The unsigned part: optional `0x`/`0X` prefix (chars 48 and 120/88),
then digits. -/
def hexBody (cs : List Char) : Option Nat :=
  match cs with
  | c0 :: c1 :: rest =>
    if c0.toNat = 48 ∧ (c1.toNat = 120 ∨ c1.toNat = 88) then hexAfterPrefix rest
    else hexDigits cs
  | _ => hexDigits cs

/-- Model of Python's `int(s, 16)` on strings: `none` models the raised
`ValueError`.  Char 45 is the minus sign, 43 the plus sign. -/
def pyIntHex (s : String) : Option Int :=
  let cs := ((s.toList.dropWhile fun c => isPySpace c).reverse.dropWhile
      fun c => isPySpace c).reverse
  match cs with
  | [] => none
  | c :: rest =>
    if c.toNat = 45 then (hexBody rest).map fun n => -(n : ℤ)
    else if c.toNat = 43 then (hexBody rest).map fun n => (n : ℤ)
    else (hexBody cs).map fun n => (n : ℤ)

/-- Model of `_hex_to_int(x)` (rollup_rotator.py lines 60-64): `int(x, 16)`, and
`-1` when that raises — for a non-hex string (`ValueError`) or any
non-string JSON value (`TypeError`). -/
def hex_to_int (j : Json) : Int :=
  match j with
  | .str s =>
    match pyIntHex s with
    | some n => n
    | none => -1
  | _ => -1

/-! ## The RPC prober

The network's behaviour at one URL: either the request fails in transport
(`urllib` raises) or a response body arrives.  A body is empty, not valid
JSON, or a JSON value.  In each case the oracle also fixes the measured
wall-clock latency in milliseconds. -/

inductive BodyContent where
  | empty : BodyContent
  | notJson (text : String) : BodyContent
  | jsonVal (j : Json) : BodyContent

inductive RpcResponse where
  | transportError (msg : String) (lat : ℚ) : RpcResponse
  | body (content : BodyContent) (lat : ℚ) : RpcResponse

/-- The latency the clock measures for a response (request start to
response fully read, or to failure). -/
def resp_lat : RpcResponse → ℚ
  | .transportError _ lat => lat
  | .body _ lat => lat

/-- The network oracle: what each URL would answer. -/
def Net : Type := String → RpcResponse

/-- Result triple of `_rpc_post`: `(ok, result_or_error, latency_ms)`. -/
structure RpcReply where
  ok : Bool
  payload : Json
  lat : ℚ

/-- Model of `_rpc_post(url, method, params)` (rollup_rotator.py lines 35-58) as a
function of the network's response:
* transport failure → `(False, {"message": str(e)}, lat)`;
* empty body → `json.loads("" or "{}")` = `{}`, no `"error"` key, so
  `(True, {}.get("result") = None, lat)`;
* non-JSON body → `json.loads` raises, caught → `(False, message, lat)`;
* JSON object with an `"error"` key → `(False, obj["error"], lat)`;
* JSON object without one → `(True, obj.get("result"), lat)`;
* any other JSON value (array, string, number, bool, null) → `"error" in
  obj` / `obj["error]"` / `obj.get` raises `TypeError`/`AttributeError`
  inside the `try`, caught → `(False, message, lat)`. -/
def rpc_post (r : RpcResponse) : RpcReply :=
  match r with
  | .transportError msg lat => ⟨false, Json.obj [(kMessage, Json.str msg)], lat⟩
  | .body .empty lat => ⟨true, Json.null, lat⟩
  | .body (.notJson t) lat =>
    ⟨false, Json.obj [(kMessage, Json.str (msgUnexpected ++ t))], lat⟩
  | .body (.jsonVal j) lat =>
    match j with
    | .obj fields =>
      match jsonLookup fields kError with
      | some e => ⟨false, e, lat⟩
      | none => ⟨true, (jsonLookup fields kResult).getD Json.null, lat⟩
    | _ => ⟨false, Json.obj [(kMessage, Json.str msgUnexpected)], lat⟩

/-! ## Python's `round`

Python's `round(x, n)` rounds to the closest multiple of `10^-n`,
choosing the even multiple on ties (round half to even). -/

/-- Round half to even: the nearest integer, the even one on ties. -/
def rhe (q : ℚ) : ℤ :=
  let n := ⌊q⌋
  let r := q - (n : ℚ)
  if r < 1/2 then n
  else if r = 1/2 then (if n % 2 = 0 then n else n + 1)
  else n + 1

/-- Python `round(x, 3)`. -/
def round3 (q : ℚ) : ℚ := ((rhe (q * 1000) : ℤ) : ℚ) / 1000

/-- Python `round(x, 1)`. -/
def round1 (q : ℚ) : ℚ := ((rhe (q * 10) : ℤ) : ℚ) / 10

/-! ## The endpoint scorer -/

/-- One row of the scored output: the dict built by `_score_endpoint`.
`drift` is `none` for Python's `None`; the `error` field is only present
(`some`) on the failure branch. -/
structure ScoredRow where
  url : String
  ok : Bool
  lat_ms : ℚ
  head : ℤ
  drift : Option ℤ
  score : ℚ
  error : Option Json

/-- Line 98: `lat_p = min(1.0, lat / LAT_BUDGET_MS)`. -/
def lat_penalty (lat : ℚ) : ℚ := min 1 (lat / LAT_BUDGET_MS)

/-- Line 99:
`drift_p = 0.0 if drift <= HEAD_SKEW_OK else min(1.0, (drift - HEAD_SKEW_OK) / 10.0)`. -/
def drift_penalty (drift : ℤ) : ℚ :=
  if drift ≤ HEAD_SKEW_OK then 0 else min 1 (((drift - HEAD_SKEW_OK : ℤ) : ℚ) / 10)

/-- Line 100: `score = max(0.0, 1.0 - 0.6*lat_p - 0.4*drift_p)`. -/
def raw_score (lat : ℚ) (drift : ℤ) : ℚ :=
  max 0 (1 - 0.6 * lat_penalty lat - 0.4 * drift_penalty drift)

/-- Model of `_score_endpoint(url, head_ref)` (rollup_rotator.py lines 90-103) as a
function of the network's response at `url`. -/
def score_endpoint (net : Net) (url : String) (head_ref : ℤ) : ScoredRow :=
  let rep := rpc_post (net url)
  if rep.ok then
    let head := hex_to_int rep.payload
    let drift : ℤ := if head_ref < 0 then 0 else max 0 (head_ref - head)
    { url := url, ok := true, lat_ms := round1 rep.lat, head := head,
      drift := some drift, score := round3 (raw_score rep.lat drift), error := none }
  else
    { url := url, ok := false, lat_ms := round1 rep.lat, head := -1,
      drift := none, score := 0, error := some rep.payload }

/-! ## The reference head estimator -/

/-- Loop body of `_best_height`: probe `u` with `eth_blockNumber` and,
if the probe succeeds, `best = max(best, _hex_to_int(res))`. -/
def bh_step (net : Net) (best : ℤ) (u : String) : ℤ :=
  let rep := rpc_post (net u)
  if rep.ok then max best (hex_to_int rep.payload) else best

/-- Model of `_best_height(candidates)` (rollup_rotator.py lines 78-88).  The
`random.shuffle` outcome is the argument `shuffled` (theorems constrain
it to be a permutation of the candidates); the code then keeps the first
`min(len(sample), 3)` entries and folds `bh_step` over them, starting
from `-1`. -/
def best_height (net : Net) (shuffled : List String) : Int :=
  let sample := shuffled.take (min shuffled.length 3)
  sample.foldl (bh_step net) (-1)

/-- The heights observed by the sampled probes that succeed, in sample
order (specification-side view of the fold in `_best_height`). -/
def successHeights (net : Net) (sample : List String) : List Int :=
  sample.filterMap fun u =>
    let rep := rpc_post (net u)
    if rep.ok then some (hex_to_int rep.payload) else none

/-! ## The selector

`cmd_test` and `cmd_pick` both build
`rows = [_score_endpoint(u, head_ref) for u in eps]` and then run
`rows.sort(key=lambda r: r["score"], reverse=True)` (lines 135-136 and
159-160).  Python's `list.sort` is stable, and `reverse=True` keeps
equal-key elements in their original order; a stable sort by a key is
exactly a sort by the lexicographic order (key descending, original
position ascending) on position-tagged elements.  `scoreAllIdx` performs
that sort on tagged rows and `scoreAll` drops the tags. -/

/-- Tag each element with its position, starting at `k`. -/
def withIdx (k : Nat) : List ScoredRow → List (Nat × ScoredRow)
  | [] => []
  | r :: rs => (k, r) :: withIdx (k + 1) rs

/-- The total order realizing Python's stable descending sort by
`r["score"]`: higher score first, original position breaking ties. -/
def lexLe (a b : Nat × ScoredRow) : Bool :=
  decide (b.2.score < a.2.score ∨ (a.2.score = b.2.score ∧ a.1 ≤ b.1))

/-- Scoring plus the stable descending sort shared by `cmd_test` and
`cmd_pick`, keeping each row's original pool position. -/
def scoreAllIdx (net : Net) (head_ref : ℤ) (urls : List String) :
    List (Nat × ScoredRow) :=
  (withIdx 0 (urls.map fun u => score_endpoint net u head_ref)).mergeSort lexLe

/-- Operation `ScoreAll`: the ranked rows of `cmd_test`/`cmd_pick` (sorted by score
descending, ties in original pool order). -/
def scoreAll (net : Net) (head_ref : ℤ) (urls : List String) : List ScoredRow :=
  (scoreAllIdx net head_ref urls).map Prod.snd

/-- The empty-pool condition: in `cmd_pick`/`cmd_test` the guard
`if not eps` takes the early exit instead of scoring. -/
inductive EmptyPoolError where
  | emptyPool : EmptyPoolError

/-- Operation `PickBest`, the core of `cmd_pick` (lines 152-161): empty pool is the
distinct error; otherwise the head of the ranked rows (`scored[0]`).
The inner `none` branch is unreachable (ranking a non-empty pool yields a
non-empty list). -/
def pick_best (net : Net) (shuffled : List String) (eps : List String) :
    Except EmptyPoolError ScoredRow :=
  if eps.isEmpty then .error .emptyPool
  else
    match (scoreAll net (best_height net shuffled) eps).head? with
    | some best => .ok best
    | none => .error .emptyPool

/-- Model of `cmd_pick(args)` (rollup_rotator.py lines 152-164) given the endpoint
URLs from the config: returns the printed line and the filesystem after
the run.  On an empty pool it prints `"No endpoints."` and returns
without scoring or saving; otherwise it saves the sticky selection dict
to the `--current` path and prints the pick. -/
def cmd_pick (net : Net) (shuffled : List String) (now : ℤ)
    (eps : List String) (currentPath : String) (fs : FS) : String × FS :=
  if eps.isEmpty then (msgNoEndpoints, fs)
  else
    let head_ref := best_height net shuffled
    let scored := scoreAll net head_ref eps
    match scored.head? with
    | none => (msgNoEndpoints, fs)
    | some best =>
      let cur := Json.obj [(kPickedAt, Json.int now), (kUrl, Json.str best.url),
        (kScore, Json.num best.score), (kLatMs, Json.num best.lat_ms),
        (kHead, Json.int best.head)]
      (msgPicked ++ best.url, save fs cur currentPath)

/-! ## The sticky selection -/

/-- The sticky selection record `cmd_pick` persists:
`{"picked_at": ..., "url": ..., "score": ..., "lat_ms": ..., "head": ...}`
(line 162). -/
structure StickySelection where
  picked_at : ℤ
  url : String
  score : ℚ
  lat_ms : ℚ
  head : ℤ

/-- The JSON object `cmd_pick` builds from a sticky selection. -/
def stickyToJson (x : StickySelection) : Json :=
  Json.obj [(kPickedAt, Json.int x.picked_at), (kUrl, Json.str x.url),
    (kScore, Json.num x.score), (kLatMs, Json.num x.lat_ms),
    (kHead, Json.int x.head)]

/-- Predicate `Except.isOk` spelled out, for binder-free statements. -/
def exceptIsOk {ε α : Type} : Except ε α → Bool
  | .ok _ => true
  | .error _ => false

/-! ## Helper lemmas: rounding -/

theorem rhe_ge_floor (q : ℚ) : ⌊q⌋ ≤ rhe q := by
  simp only [rhe]
  split_ifs <;> omega

theorem rhe_le_floor_add_one (q : ℚ) : rhe q ≤ ⌊q⌋ + 1 := by
  simp only [rhe]
  split_ifs <;> omega

theorem rhe_mono {x y : ℚ} (h : x ≤ y) : rhe x ≤ rhe y := by
  have hf : ⌊x⌋ ≤ ⌊y⌋ := Int.floor_mono h
  rcases lt_or_eq_of_le hf with hlt | heq
  · refine le_trans (rhe_le_floor_add_one x) (le_trans ?_ (rhe_ge_floor y))
    omega
  · by_cases hx1 : x - ((⌊x⌋ : ℤ) : ℚ) < 1/2
    · have hx : rhe x = ⌊x⌋ := by
        simp only [rhe]
        rw [if_pos hx1]
      rw [hx, heq]
      exact rhe_ge_floor y
    · by_cases hy1 : y - ((⌊y⌋ : ℤ) : ℚ) < 1/2
      · exfalso
        rw [← heq] at hy1
        have := not_lt.mp hx1
        linarith
      · by_cases hx2 : x - ((⌊x⌋ : ℤ) : ℚ) = 1/2
        · by_cases hy2 : y - ((⌊y⌋ : ℤ) : ℚ) = 1/2
          · have hxy : x = y := by
              rw [← heq] at hy2
              linarith
            rw [hxy]
          · have hy : rhe y = ⌊y⌋ + 1 := by
              simp only [rhe]
              rw [if_neg hy1, if_neg hy2]
            rw [hy, ← heq]
            exact rhe_le_floor_add_one x
        · have hxgt : 1/2 < x - ((⌊x⌋ : ℤ) : ℚ) :=
            lt_of_le_of_ne (not_lt.mp hx1) (Ne.symm hx2)
          by_cases hy2 : y - ((⌊y⌋ : ℤ) : ℚ) = 1/2
          · exfalso
            rw [← heq] at hy2
            linarith
          · have hx3 : rhe x = ⌊x⌋ + 1 := by
              simp only [rhe]
              rw [if_neg hx1, if_neg hx2]
            have hy3 : rhe y = ⌊y⌋ + 1 := by
              simp only [rhe]
              rw [if_neg hy1, if_neg hy2]
            rw [hx3, hy3]
            omega

theorem round3_mono {x y : ℚ} (h : x ≤ y) : round3 x ≤ round3 y := by
  unfold round3
  have h1 : rhe (x * 1000) ≤ rhe (y * 1000) := rhe_mono (by linarith)
  have h2 : ((rhe (x * 1000) : ℤ) : ℚ) ≤ ((rhe (y * 1000) : ℤ) : ℚ) := by
    exact_mod_cast h1
  linarith

theorem round3_zero : round3 0 = 0 := by
  norm_num [round3, rhe]

theorem round3_one : round3 1 = 1 := by
  norm_num [round3, rhe]

theorem round3_nonneg {q : ℚ} (h : 0 ≤ q) : 0 ≤ round3 q := by
  have := round3_mono h
  rwa [round3_zero] at this

theorem round3_le_one {q : ℚ} (h : q ≤ 1) : round3 q ≤ 1 := by
  have := round3_mono h
  rwa [round3_one] at this

/-! ## Helper lemmas: penalties and raw score -/

theorem lat_penalty_nonneg {lat : ℚ} (h : 0 ≤ lat) : 0 ≤ lat_penalty lat := by
  unfold lat_penalty LAT_BUDGET_MS
  positivity

theorem lat_penalty_mono {a b : ℚ} (h : a ≤ b) : lat_penalty a ≤ lat_penalty b := by
  unfold lat_penalty LAT_BUDGET_MS
  gcongr

theorem drift_penalty_nonneg (d : ℤ) : 0 ≤ drift_penalty d := by
  unfold drift_penalty HEAD_SKEW_OK
  split_ifs with h
  · exact le_refl 0
  · have h3 : (0 : ℚ) ≤ ((d - 3 : ℤ) : ℚ) := by
      exact_mod_cast (by omega : (0 : ℤ) ≤ d - 3)
    have h4 : (0 : ℚ) ≤ ((d - 3 : ℤ) : ℚ) / 10 := by positivity
    exact le_min (by norm_num) h4

theorem drift_penalty_mono {d1 d2 : ℤ} (h : d1 ≤ d2) :
    drift_penalty d1 ≤ drift_penalty d2 := by
  unfold drift_penalty HEAD_SKEW_OK
  split_ifs with h1 h2 h2
  · exact le_refl 0
  · have h3 : (0 : ℚ) ≤ ((d2 - 3 : ℤ) : ℚ) := by
      exact_mod_cast (by omega : (0 : ℤ) ≤ d2 - 3)
    have h4 : (0 : ℚ) ≤ ((d2 - 3 : ℤ) : ℚ) / 10 := by positivity
    exact le_min (by norm_num) h4
  · exact absurd (le_trans h h2) h1
  · have h3 : ((d1 - 3 : ℤ) : ℚ) ≤ ((d2 - 3 : ℤ) : ℚ) := by
      exact_mod_cast (by omega : (d1 - 3 : ℤ) ≤ d2 - 3)
    gcongr

theorem raw_score_nonneg (lat : ℚ) (d : ℤ) : 0 ≤ raw_score lat d :=
  le_max_left 0 _

theorem raw_score_le_one {lat : ℚ} (h : 0 ≤ lat) (d : ℤ) : raw_score lat d ≤ 1 := by
  unfold raw_score
  have h1 := lat_penalty_nonneg h
  have h2 := drift_penalty_nonneg d
  have : 1 - 0.6 * lat_penalty lat - 0.4 * drift_penalty d ≤ 1 := by nlinarith
  exact max_le (by norm_num) this

theorem raw_score_anti_lat {a b : ℚ} (h : a ≤ b) (d : ℤ) :
    raw_score b d ≤ raw_score a d := by
  unfold raw_score
  have h1 := lat_penalty_mono h
  have : 1 - 0.6 * lat_penalty b - 0.4 * drift_penalty d ≤
      1 - 0.6 * lat_penalty a - 0.4 * drift_penalty d := by nlinarith
  exact max_le_max le_rfl this

theorem raw_score_anti_drift (lat : ℚ) {d1 d2 : ℤ} (h : d1 ≤ d2) :
    raw_score lat d2 ≤ raw_score lat d1 := by
  unfold raw_score
  have h1 := drift_penalty_mono h
  have : 1 - 0.6 * lat_penalty lat - 0.4 * drift_penalty d2 ≤
      1 - 0.6 * lat_penalty lat - 0.4 * drift_penalty d1 := by nlinarith
  exact max_le_max le_rfl this

/-! ## Helper lemmas: the prober and scorer -/

theorem rpc_post_lat (r : RpcResponse) : (rpc_post r).lat = resp_lat r := by
  rcases r with _ | ⟨c, lat⟩
  · rfl
  · rcases c with _ | _ | j
    · rfl
    · rfl
    · rcases j with _ | _ | _ | _ | _ | _ | fields
      case obj =>
        cases hjl : jsonLookup fields kError with
        | none => simp [rpc_post, resp_lat, hjl]
        | some e => simp [rpc_post, resp_lat, hjl]
      all_goals rfl

theorem score_endpoint_of_ok {net : Net} {url : String} (head_ref : ℤ)
    (hok : (rpc_post (net url)).ok = true) :
    score_endpoint net url head_ref =
      { url := url, ok := true, lat_ms := round1 (rpc_post (net url)).lat,
        head := hex_to_int (rpc_post (net url)).payload,
        drift := some (if head_ref < 0 then 0
          else max 0 (head_ref - hex_to_int (rpc_post (net url)).payload)),
        score := round3 (raw_score (rpc_post (net url)).lat
          (if head_ref < 0 then 0
            else max 0 (head_ref - hex_to_int (rpc_post (net url)).payload))),
        error := none } := by
  simp only [score_endpoint]
  rw [hok]
  simp

theorem score_endpoint_of_fail {net : Net} {url : String} (head_ref : ℤ)
    (hok : (rpc_post (net url)).ok = false) :
    score_endpoint net url head_ref =
      { url := url, ok := false, lat_ms := round1 (rpc_post (net url)).lat,
        head := -1, drift := none, score := 0,
        error := some (rpc_post (net url)).payload } := by
  simp only [score_endpoint]
  rw [hok]
  simp

/-! ## Helper lemmas: the fold in `_best_height` -/

theorem bh_fold_spec (net : Net) (l : List String) : ∀ (b : ℤ),
    l.foldl (bh_step net) b ∈ b :: successHeights net l
    ∧ ∀ x ∈ b :: successHeights net l, x ≤ l.foldl (bh_step net) b := by
  induction l with
  | nil =>
    intro b
    simp [successHeights]
  | cons u rest ih =>
    intro b
    have hstep : List.foldl (bh_step net) b (u :: rest) =
        List.foldl (bh_step net) (bh_step net b u) rest := rfl
    by_cases hok : (rpc_post (net u)).ok = true
    · have hsh : successHeights net (u :: rest) =
          hex_to_int (rpc_post (net u)).payload :: successHeights net rest := by
        simp [successHeights, hok]
      have hb : bh_step net b u = max b (hex_to_int (rpc_post (net u)).payload) := by
        simp [bh_step, hok]
      obtain ⟨hmem, hub⟩ := ih (bh_step net b u)
      have hmax : max b (hex_to_int (rpc_post (net u)).payload) ≤
          List.foldl (bh_step net) (bh_step net b u) rest := by
        rw [← hb]
        exact hub _ (List.mem_cons_self _ _)
      constructor
      · rw [hstep, hsh]
        rcases List.mem_cons.mp hmem with hcase | hcase
        · rw [hcase, hb]
          rcases max_choice b (hex_to_int (rpc_post (net u)).payload) with hmx | hmx
          · rw [hmx]
            exact List.mem_cons_self _ _
          · rw [hmx]
            exact List.mem_cons_of_mem _ (List.mem_cons_self _ _)
        · exact List.mem_cons_of_mem _ (List.mem_cons_of_mem _ hcase)
      · intro x hx
        rw [hstep]
        rcases List.mem_cons.mp hx with hcase | hcase
        · rw [hcase]
          exact le_trans (le_max_left b (hex_to_int (rpc_post (net u)).payload)) hmax
        · rw [hsh] at hcase
          rcases List.mem_cons.mp hcase with hcase2 | hcase2
          · rw [hcase2]
            exact le_trans (le_max_right b (hex_to_int (rpc_post (net u)).payload)) hmax
          · exact hub x (List.mem_cons_of_mem _ hcase2)
    · have hok2 : (rpc_post (net u)).ok = false := Bool.eq_false_iff.mpr hok
      have hsh : successHeights net (u :: rest) = successHeights net rest := by
        simp [successHeights, hok2]
      have hb : bh_step net b u = b := by
        simp [bh_step, hok2]
      obtain ⟨hmem, hub⟩ := ih b
      rw [hstep, hsh, hb]
      exact ⟨hmem, hub⟩

/-! ## Helper lemmas: the stable sort in `cmd_test`/`cmd_pick` -/

theorem withIdx_map_snd (k : Nat) (l : List ScoredRow) :
    (withIdx k l).map Prod.snd = l := by
  induction l generalizing k with
  | nil => rfl
  | cons r rs ih =>
    simp [withIdx, ih]

theorem mem_withIdx_fst_ge {k : Nat} {l : List ScoredRow} {p : Nat × ScoredRow}
    (hp : p ∈ withIdx k l) : k ≤ p.1 := by
  induction l generalizing k with
  | nil => simp [withIdx] at hp
  | cons r rs ih =>
    rcases List.mem_cons.mp hp with hcase | hcase
    · rw [hcase]
    · exact le_trans (Nat.le_succ k) (ih hcase)

theorem mem_withIdx_snd {k : Nat} {l : List ScoredRow} {p : Nat × ScoredRow}
    (hp : p ∈ withIdx k l) : p.2 ∈ l := by
  induction l generalizing k with
  | nil => simp [withIdx] at hp
  | cons r rs ih =>
    rcases List.mem_cons.mp hp with hcase | hcase
    · rw [hcase]
      exact List.mem_cons_self _ _
    · exact List.mem_cons_of_mem _ (ih hcase)

theorem withIdx_pairwise_fst_lt (k : Nat) (l : List ScoredRow) :
    (withIdx k l).Pairwise (fun a b => a.1 < b.1) := by
  induction l generalizing k with
  | nil => exact List.Pairwise.nil
  | cons r rs ih =>
    refine List.Pairwise.cons ?_ (ih (k + 1))
    intro p hp
    exact lt_of_lt_of_le (Nat.lt_succ_self k) (mem_withIdx_fst_ge hp)

theorem lexLe_iff (a b : Nat × ScoredRow) :
    lexLe a b = true ↔
      (b.2.score < a.2.score ∨ (a.2.score = b.2.score ∧ a.1 ≤ b.1)) := by
  simp [lexLe]

theorem lexLe_trans (a b c : Nat × ScoredRow)
    (hab : lexLe a b = true) (hbc : lexLe b c = true) : lexLe a c = true := by
  rw [lexLe_iff] at hab hbc ⊢
  rcases hab with h1 | ⟨h1, h1i⟩ <;> rcases hbc with h2 | ⟨h2, h2i⟩
  · exact Or.inl (lt_trans h2 h1)
  · exact Or.inl (h2 ▸ h1)
  · exact Or.inl (by rw [h1]; exact h2)
  · exact Or.inr ⟨h1.trans h2, le_trans h1i h2i⟩

theorem lexLe_total (a b : Nat × ScoredRow) :
    (lexLe a b || lexLe b a) = true := by
  rw [Bool.or_eq_true, lexLe_iff, lexLe_iff]
  rcases lt_trichotomy a.2.score b.2.score with hs | hs | hs
  · exact Or.inr (Or.inl hs)
  · rcases Nat.le_total a.1 b.1 with hi | hi
    · exact Or.inl (Or.inr ⟨hs, hi⟩)
    · exact Or.inr (Or.inr ⟨hs.symm, hi⟩)
  · exact Or.inl (Or.inl hs)

/-- The output of the ranking keeps all original positions distinct. -/
theorem scoreAllIdx_pairwise_fst_ne (net : Net) (head_ref : ℤ) (urls : List String) :
    (scoreAllIdx net head_ref urls).Pairwise (fun a b => a.1 ≠ b.1) := by
  have h1 : (withIdx 0 (urls.map fun u => score_endpoint net u head_ref)).Pairwise
      (fun a b => a.1 ≠ b.1) :=
    (withIdx_pairwise_fst_lt 0 _).imp fun h => Nat.ne_of_lt h
  exact h1.perm (List.mergeSort_perm _ lexLe).symm fun h => Ne.symm h

/-- With every probe failing, every scored row carries score `0`, so the
position-tagged rows are already sorted for `lexLe` and the stable sort
returns them unchanged: the ranking is the pool in its original order. -/
theorem scoreAll_all_fail (net : Net) (head_ref : ℤ) (urls : List String)
    (hfail : ∀ v ∈ urls, (rpc_post (net v)).ok = false) :
    scoreAll net head_ref urls = urls.map fun u => score_endpoint net u head_ref := by
  have hsc : ∀ p ∈ withIdx 0 (urls.map fun u => score_endpoint net u head_ref),
      p.2.score = 0 := by
    intro p hp
    rcases List.mem_map.mp (mem_withIdx_snd hp) with ⟨u, hu, heq⟩
    rw [← heq, score_endpoint_of_fail head_ref (hfail u hu)]
  have hsorted : (withIdx 0 (urls.map fun u => score_endpoint net u head_ref)).Pairwise
      (fun a b => lexLe a b = true) := by
    refine List.Pairwise.imp_of_mem ?_ (withIdx_pairwise_fst_lt 0 _)
    intro a b ha hb hlt
    exact (lexLe_iff a b).mpr (Or.inr ⟨by rw [hsc a ha, hsc b hb], le_of_lt hlt⟩)
  unfold scoreAll scoreAllIdx
  rw [List.mergeSort_of_sorted hsorted, withIdx_map_snd]

/-! ## Helper lemmas: persistence -/

theorem tmpSuffix_length : tmpSuffix.length = 4 := rfl

theorem path_ne_tmp (path : String) : path ≠ path ++ tmpSuffix := by
  intro h
  have h2 := congrArg String.length h
  rw [String.length_append, tmpSuffix_length] at h2
  omega

/-- After an atomic save, loading the target path parses back exactly the
saved value. -/
theorem load_save (fs : FS) (obj : Json) (path : String) :
    load (save fs obj path) path = Except.ok obj := by
  unfold load save fsWrite
  have hne : path ≠ path ++ tmpSuffix := path_ne_tmp path
  simp [hne, pyJsonDumps, pyJsonLoads]

/-! # The claims -/

/-! ## C1 — the scoring formula -/

/-- C1's wording of the drift rule: `drift = max(0, reference_head - head)`
when `reference_head ≥ 0`, else `0`. -/
def c1_drift_spec (head_ref head : ℤ) : ℤ :=
  if 0 ≤ head_ref then max 0 (head_ref - head) else 0

/-- C1's wording of the drift penalty: `0` if `drift ≤ 3`, else
`min(1.0, (drift - 3)/10)`. -/
def c1_drift_penalty_spec (drift : ℤ) : ℚ :=
  if drift ≤ 3 then 0 else min 1 (((drift - 3 : ℤ) : ℚ) / 10)

/-- C1's wording of the score:
`max(0.0, 1.0 - 0.6*min(1.0, latency_ms/1200) - 0.4*drift_penalty)`. -/
def c1_score_spec (lat : ℚ) (drift : ℤ) : ℚ :=
  max 0 (1 - 0.6 * min 1 (lat / 1200) - 0.4 * c1_drift_penalty_spec drift)

/-- C1: for every endpoint whose probe succeeds, the scorer computes
`drift = max(0, reference_head - head)` when `reference_head ≥ 0` and
`drift = 0` when `reference_head < 0`, and returns
`score = max(0.0, 1.0 - 0.6*min(1.0, latency_ms/1200) - 0.4*drift_penalty)`
with `drift_penalty = 0` if `drift ≤ 3` and `min(1.0, (drift-3)/10)`
otherwise, the score rounded to 3 decimal places. -/
theorem C1_score_formula (net : Net) (url : String) (head_ref : ℤ)
    (hok : (rpc_post (net url)).ok = true) :
    score_endpoint net url head_ref =
      { url := url, ok := true,
        lat_ms := round1 (rpc_post (net url)).lat,
        head := hex_to_int (rpc_post (net url)).payload,
        drift := some (c1_drift_spec head_ref (hex_to_int (rpc_post (net url)).payload)),
        score := round3 (c1_score_spec (rpc_post (net url)).lat
          (c1_drift_spec head_ref (hex_to_int (rpc_post (net url)).payload))),
        error := none } := by
  rw [score_endpoint_of_ok head_ref hok]
  have hdrift : (if head_ref < 0 then 0
      else max 0 (head_ref - hex_to_int (rpc_post (net url)).payload)) =
      c1_drift_spec head_ref (hex_to_int (rpc_post (net url)).payload) := by
    unfold c1_drift_spec
    rcases lt_or_le head_ref 0 with hc | hc
    · rw [if_pos hc, if_neg (by omega)]
    · rw [if_neg (by omega), if_pos hc]
  have hscore : ∀ d : ℤ, raw_score (rpc_post (net url)).lat d =
      c1_score_spec (rpc_post (net url)).lat d := by
    intro d
    unfold raw_score c1_score_spec lat_penalty drift_penalty c1_drift_penalty_spec
    rfl
  rw [hdrift, hscore]

def c1_net : Net :=
  fun _ => .body (.jsonVal (Json.obj [(kResult, Json.str ("0x64"))])) 120

/-- Witness for C1 at a concrete network response: a successful probe at
latency 120 ms reporting head `0x64` = 100, scored against reference 105. -/
theorem C1_score_formula_witness :
    score_endpoint c1_net ("u") 105 =
      { url := ("u"), ok := true,
        lat_ms := round1 (rpc_post (c1_net ("u"))).lat,
        head := hex_to_int (rpc_post (c1_net ("u"))).payload,
        drift := some (c1_drift_spec 105 (hex_to_int (rpc_post (c1_net ("u"))).payload)),
        score := round3 (c1_score_spec (rpc_post (c1_net ("u"))).lat
          (c1_drift_spec 105 (hex_to_int (rpc_post (c1_net ("u"))).payload))),
        error := none } :=
  C1_score_formula c1_net ("u") 105 rfl

/-! ## C2 — score bounds and the failure floor -/

/-- C2: for every endpoint and every reference head (and a nonnegative
measured latency), the returned score lies in `[0, 1]`; whenever the
probe fails the score is exactly `0` and the drift is `None`. -/
theorem C2_score_bounds (net : Net) (url : String) (head_ref : ℤ)
    (hlat : 0 ≤ resp_lat (net url)) :
    (0 ≤ (score_endpoint net url head_ref).score
      ∧ (score_endpoint net url head_ref).score ≤ 1)
    ∧ ((rpc_post (net url)).ok = false →
        (score_endpoint net url head_ref).score = 0
        ∧ (score_endpoint net url head_ref).drift = none) := by
  have hlat2 : 0 ≤ (rpc_post (net url)).lat := by
    rw [rpc_post_lat]
    exact hlat
  rcases Bool.eq_false_or_eq_true (rpc_post (net url)).ok with hok | hok
  · rw [score_endpoint_of_ok head_ref hok]
    refine ⟨⟨round3_nonneg (raw_score_nonneg _ _),
      round3_le_one (raw_score_le_one hlat2 _)⟩, ?_⟩
    intro hcontra
    rw [hok] at hcontra
    exact absurd hcontra (by simp)
  · rw [score_endpoint_of_fail head_ref hok]
    exact ⟨⟨le_refl 0, by norm_num⟩, fun _ => ⟨rfl, rfl⟩⟩

def c2_net : Net := fun _ => .transportError ("connection refused") 5

/-- Witness for C2 at a concrete failing probe (transport error at
latency 5 ms): the bounds hold and the failure branch gives score `0`
and null drift. -/
theorem C2_score_bounds_witness :
    ((0 ≤ (score_endpoint c2_net ("u") 7).score
      ∧ (score_endpoint c2_net ("u") 7).score ≤ 1)
    ∧ ((rpc_post (c2_net ("u"))).ok = false →
        (score_endpoint c2_net ("u") 7).score = 0
        ∧ (score_endpoint c2_net ("u") 7).drift = none))
    ∧ (score_endpoint c2_net ("u") 7).score = 0
    ∧ (score_endpoint c2_net ("u") 7).drift = none := by
  have h := C2_score_bounds c2_net ("u") 7 (by
    show (0 : ℚ) ≤ 5
    norm_num)
  exact ⟨h, h.2 rfl⟩

/-! ## C10 — successful probe with an invalid hex result -/

/-- A probe payload that `_hex_to_int` can parse: a string accepted by
Python's `int(x, 16)`. -/
def validHexResult (j : Json) : Bool :=
  match j with
  | .str s => (pyIntHex s).isSome
  | _ => false

/-- C10: when a probe succeeds but its result is not a valid hex string,
the scorer records `head = -1`, and for any `reference_head ≥ 0` computes
`drift = reference_head + 1`, still reporting `ok = true` with a
non-null drift. -/
theorem C10_invalid_hex (net : Net) (url : String) (head_ref : ℤ)
    (hok : (rpc_post (net url)).ok = true)
    (hbad : validHexResult (rpc_post (net url)).payload = false)
    (href : 0 ≤ head_ref) :
    (score_endpoint net url head_ref).ok = true
    ∧ (score_endpoint net url head_ref).head = -1
    ∧ (score_endpoint net url head_ref).drift = some (head_ref + 1) := by
  have hhead : hex_to_int (rpc_post (net url)).payload = -1 := by
    rcases hpay : (rpc_post (net url)).payload with _ | _ | _ | _ | s | _ | _ <;>
      try rfl
    rw [hpay] at hbad
    simp only [validHexResult] at hbad
    have hparse : pyIntHex s = none := Option.not_isSome_iff_eq_none.mp (by
      simp [hbad])
    simp [hex_to_int, hparse]
  rw [score_endpoint_of_ok head_ref hok, hhead]
  refine ⟨rfl, rfl, ?_⟩
  have : (if head_ref < 0 then 0 else max 0 (head_ref - (-1 : ℤ))) = head_ref + 1 := by
    rw [if_neg (by omega)]
    omega
  rw [this]

def c10_net : Net :=
  fun _ => .body (.jsonVal (Json.obj [(kResult, Json.str ("xyz"))])) 80

/-- Witness for C10: a successful probe whose result `"xyz"` is not hex,
scored against reference 5, yields head `-1` and drift `6`. -/
theorem C10_invalid_hex_witness :
    (score_endpoint c10_net ("u") 5).ok = true
    ∧ (score_endpoint c10_net ("u") 5).head = -1
    ∧ (score_endpoint c10_net ("u") 5).drift = some 6 :=
  C10_invalid_hex c10_net ("u") 5 rfl (by decide) (by decide)

/-! ## C3 — the reference head estimator

The claim says the estimator "returns the maximum observed block height
across the samples that probed successfully".  The code folds `max`
starting from the sentinel `-1`, so a successful sample whose observed
height is below `-1` (Python's `int(x, 16)` does parse negative hex
strings such as `"-2"`) cannot pull the result down to it: the result is
the maximum of `-1` and the observed heights, not of the observed heights
alone. -/

/-- A pool whose only endpoint answers successfully with result `"-2"`,
which `int("-2", 16)` parses to the height `-2`. -/
def c3_net : Net :=
  fun _ => .body (.jsonVal (Json.obj [(kResult, Json.str ("-2"))])) 50

/-- Counterexample to C3 as stated: for the singleton pool `["u"]` every
sampled probe succeeds and the observed heights are `[-2]`, whose maximum
is `-2`, yet `_best_height` returns `-1`. -/
theorem C3_counterexample :
    successHeights c3_net ([("u")].take (min ([("u")] : List String).length 3)) = [-2]
    ∧ best_height c3_net [("u")] = -1
    ∧ ((-2 : ℤ) ≠ -1) := by
  refine ⟨by decide, by decide, by decide⟩

/-- C3 (amended): the estimator probes exactly `min(3, |candidates|)`
sampled URLs (hence at most that many), and returns the maximum of `-1`
and the heights observed by the sampled probes that succeed — so it
returns `-1` when every sampled probe fails, and the maximum observed
height whenever at least one successful sample observes a height ≥ -1. -/
theorem C3_best_height (net : Net) (shuffled candidates : List String)
    (hperm : shuffled.Perm candidates) :
    (shuffled.take (min shuffled.length 3)).length = min 3 candidates.length
    ∧ best_height net shuffled ∈
        (-1 : ℤ) :: successHeights net (shuffled.take (min shuffled.length 3))
    ∧ ∀ x ∈ (-1 : ℤ) :: successHeights net (shuffled.take (min shuffled.length 3)),
        x ≤ best_height net shuffled := by
  refine ⟨?_, ?_, ?_⟩
  · rw [List.length_take, hperm.length_eq]
    omega
  · exact (bh_fold_spec net (shuffled.take (min shuffled.length 3)) (-1)).1
  · exact (bh_fold_spec net (shuffled.take (min shuffled.length 3)) (-1)).2

def c3w_net : Net :=
  fun u => if u = ("a") then .body (.jsonVal (Json.obj [(kResult, Json.str ("0x69"))])) 40
    else .transportError ("timeout") 6000

/-- Witness for C3 (amended) on a two-endpoint pool sampled in reverse
order, where only endpoint `"a"` responds (height `0x69` = 105): the
sample has size `min(3, 2) = 2` and the estimate is an attained upper
bound of `{-1, 105}`. -/
theorem C3_best_height_witness :
    ([("b"), ("a")].take (min ([("b"), ("a")] : List String).length 3)).length =
      min 3 ([("a"), ("b")] : List String).length
    ∧ best_height c3w_net [("b"), ("a")] ∈
        (-1 : ℤ) :: successHeights c3w_net
          ([("b"), ("a")].take (min ([("b"), ("a")] : List String).length 3))
    ∧ ∀ x ∈ (-1 : ℤ) :: successHeights c3w_net
          ([("b"), ("a")].take (min ([("b"), ("a")] : List String).length 3)),
        x ≤ best_height c3w_net [("b"), ("a")] :=
  C3_best_height c3w_net [("b"), ("a")] [("a"), ("b")] (List.Perm.swap _ _ _)

/-! ## C4 — deterministic ranking and the all-fail tie-break -/

/-- C4: ranking is a pure function of the probe outcomes (in this
embedding `scoreAll` is a function of the network oracle, so identical
probe outcomes give identical rankings definitionally), and the output
order is characterized as: score strictly descending, with ties broken by
strictly ascending original pool position.  Moreover, when every probe
fails, `pick_best` returns the first endpoint of the pool in original
order rather than an error. -/
theorem C4_ranking (net : Net) (head_ref : ℤ) (urls : List String) :
    (scoreAllIdx net head_ref urls).Pairwise
      (fun a b => b.2.score < a.2.score ∨ (a.2.score = b.2.score ∧ a.1 < b.1))
    ∧ (∀ (shuffled : List String) (u : String) (rest : List String),
        urls = u :: rest →
        (∀ v ∈ urls, (rpc_post (net v)).ok = false) →
        pick_best net shuffled urls =
          Except.ok (score_endpoint net u (best_height net shuffled))) := by
  constructor
  · have hsorted : (scoreAllIdx net head_ref urls).Pairwise
        (fun a b => lexLe a b = true) :=
      List.sorted_mergeSort lexLe_trans lexLe_total _
    have hne := scoreAllIdx_pairwise_fst_ne net head_ref urls
    refine (hsorted.and hne).imp ?_
    intro a b hab
    rcases (lexLe_iff a b).mp hab.1 with hcase | ⟨hceq, hcle⟩
    · exact Or.inl hcase
    · exact Or.inr ⟨hceq, lt_of_le_of_ne hcle hab.2⟩
  · intro shuffled u rest hurls hfail
    have hsa := scoreAll_all_fail net (best_height net shuffled) urls hfail
    rw [hurls] at hsa ⊢
    unfold pick_best
    rw [hsa]
    rfl

def c4_net : Net := fun _ => .transportError ("refused") 9

/-- Witness for C4's all-fail clause: a two-endpoint pool probed through
a network refusing every connection, with the shuffle reversing the pool:
`pick_best` returns the first endpoint `"a"`. -/
theorem C4_ranking_witness :
    pick_best c4_net [("b"), ("a")] [("a"), ("b")] =
      Except.ok (score_endpoint c4_net ("a") (best_height c4_net [("b"), ("a")])) :=
  (C4_ranking c4_net 0 [("a"), ("b")]).2 [("b"), ("a")] ("a") [("b")] rfl
    fun _ _ => rfl

/-! ## C5 — empty pool handling -/

/-- C5: on an empty pool `pick_best` yields the distinct empty-pool
error (in the code, `cmd_pick` prints `"No endpoints."` and returns
without scoring or saving — the filesystem is unchanged), while ranking
an empty pool yields the empty sequence and no error. -/
theorem C5_empty_pool (net : Net) (shuffled : List String) (head_ref : ℤ)
    (now : ℤ) (path : String) (fs : FS) :
    pick_best net shuffled [] = Except.error EmptyPoolError.emptyPool
    ∧ scoreAll net head_ref [] = []
    ∧ cmd_pick net shuffled now [] path fs = (msgNoEndpoints, fs) := by
  refine ⟨rfl, ?_, rfl⟩
  unfold scoreAll scoreAllIdx withIdx
  simp

/-! ## C6 — loading the sticky file

The claim says a malformed sticky file is loaded as empty/absent and is
never fatal.  The code's `_load` only guards against a missing file; when
the file exists, `json.load` runs unprotected and raises on malformed
contents. -/

/-- A filesystem whose `current.json` exists but is not valid JSON. -/
def c6_fs : FS :=
  fun p => if p = ("current.json") then some (.invalidText ("oops")) else none

/-- Counterexample to C6 as stated: loading the malformed `current.json`
raises a decode error — it does not return the empty result. -/
theorem C6_counterexample :
    load c6_fs ("current.json") = Except.error msgDecodeErr
    ∧ exceptIsOk (load c6_fs ("current.json")) = false :=
  ⟨rfl, rfl⟩

/-- C6 (amended): loading returns the empty object when the file does
not exist; when the file exists, valid JSON is returned as parsed, and
malformed contents raise a decode error — the load path propagates the
parse failure instead of treating it as absent. -/
theorem C6_load (fs : FS) (path : String) :
    (fs path = none → load fs path = Except.ok (Json.obj []))
    ∧ (∀ s, fs path = some (FileText.invalidText s) →
        load fs path = Except.error msgDecodeErr)
    ∧ (∀ j, fs path = some (FileText.jsonText j) → load fs path = Except.ok j) := by
  refine ⟨?_, ?_, ?_⟩
  · intro h
    unfold load
    rw [h]
  · intro s h
    unfold load
    rw [h]
    rfl
  · intro j h
    unfold load
    rw [h]
    rfl

def c6w_fs : FS := fun p => if p = ("s.json") then some (.jsonText Json.null) else none

/-- Witness for C6 (amended) on concrete filesystems: an absent path
loads as the empty object, the malformed `current.json` raises, and a
well-formed file loads as its value. -/
theorem C6_load_witness :
    load c6_fs ("other.json") = Except.ok (Json.obj [])
    ∧ load c6_fs ("current.json") = Except.error msgDecodeErr
    ∧ load c6w_fs ("s.json") = Except.ok Json.null :=
  ⟨(C6_load c6_fs ("other.json")).1 rfl,
    (C6_load c6_fs ("current.json")).2.1 ("oops") rfl,
    (C6_load c6w_fs ("s.json")).2.2 Json.null rfl⟩

/-! ## C7 — the sticky round trip -/

/-- C7: saving a sticky selection and loading it back returns a selection
equal to it in all fields (`picked_at`, `url`, `score`, `lat_ms`,
`head`), on every starting filesystem and for every target path. -/
theorem C7_sticky_roundtrip (fs : FS) (path : String) (x : StickySelection) :
    load (save fs (stickyToJson x) path) path = Except.ok (stickyToJson x)
    ∧ ∃ kvs, load (save fs (stickyToJson x) path) path = Except.ok (Json.obj kvs)
      ∧ jsonLookup kvs kPickedAt = some (Json.int x.picked_at)
      ∧ jsonLookup kvs kUrl = some (Json.str x.url)
      ∧ jsonLookup kvs kScore = some (Json.num x.score)
      ∧ jsonLookup kvs kLatMs = some (Json.num x.lat_ms)
      ∧ jsonLookup kvs kHead = some (Json.int x.head) := by
  have hload := load_save fs (stickyToJson x) path
  refine ⟨hload, [(kPickedAt, Json.int x.picked_at), (kUrl, Json.str x.url),
    (kScore, Json.num x.score), (kLatMs, Json.num x.lat_ms),
    (kHead, Json.int x.head)], hload, ?_, ?_, ?_, ?_, ?_⟩ <;>
    simp [jsonLookup, kPickedAt, kUrl, kScore, kLatMs, kHead]

/-! ## C8 — monotonicity of the score -/

/-- C8: holding the drift (determined by the measured and reference
heads) fixed, the rounded score is non-increasing as latency increases;
holding latency fixed, the rounded score is non-increasing as drift
increases beyond the `HEAD_SKEW_OK = 3` block tolerance. -/
theorem C8_monotonicity (lat lat1 lat2 : ℚ) (d d1 d2 : ℤ)
    (hlat : lat1 ≤ lat2) (hd1 : HEAD_SKEW_OK ≤ d1) (hd : d1 ≤ d2) :
    round3 (raw_score lat2 d) ≤ round3 (raw_score lat1 d)
    ∧ round3 (raw_score lat d2) ≤ round3 (raw_score lat d1) := by
  refine ⟨round3_mono (raw_score_anti_lat hlat d), ?_⟩
  exact round3_mono (raw_score_anti_drift lat hd)

/-- Witness for C8 at concrete inputs: latency 100 → 200 at drift 0, and
drift 5 → 9 at latency 0. -/
theorem C8_monotonicity_witness :
    round3 (raw_score 200 0) ≤ round3 (raw_score 100 0)
    ∧ round3 (raw_score 0 9) ≤ round3 (raw_score 0 5) :=
  C8_monotonicity 0 100 200 0 5 9 (by norm_num) (by decide) (by decide)

/-! ## C9 — the prober's success condition

The claim says `ok=false` exactly when there is a transport error, the
body is not JSON, or the parsed response has an `error` field.  The code
differs in two places: an empty body is not valid JSON (`json.loads("")`
raises) yet `raw.decode() or "{}"` turns it into `{}` and the probe
reports `ok=true`; and a valid-JSON body that is not an object (array,
string, number, bool, null) has no `error` field yet the membership test
or `obj.get` raises inside the `try`, so the probe reports `ok=false`. -/

/-- C9's success condition as the claim states it: `ok` is false exactly
on a transport error, a body that is not valid JSON (an empty string is
not valid JSON), or a parsed response containing an `error` field. -/
def c9_claim_ok : RpcResponse → Bool
  | .transportError _ _ => false
  | .body .empty _ => false
  | .body (.notJson _) _ => false
  | .body (.jsonVal j) _ =>
    match j with
    | .obj fields => !(jsonLookup fields kError).isSome
    | _ => true

def c9_resp_arr : RpcResponse := .body (.jsonVal (Json.arr [])) 5

def c9_resp_empty : RpcResponse := .body .empty 7

/-- Counterexample to C9 as stated, at two concrete responses: a body
`[]` is valid JSON with no `error` field, so the claim predicts
`ok=true`, but the code reports `ok=false`; an empty body is not valid
JSON, so the claim predicts `ok=false`, but the code reports `ok=true`. -/
theorem C9_counterexample :
    (rpc_post c9_resp_arr).ok = false ∧ c9_claim_ok c9_resp_arr = true
    ∧ (rpc_post c9_resp_empty).ok = true ∧ c9_claim_ok c9_resp_empty = false := by
  refine ⟨rfl, rfl, rfl, rfl⟩

/-- The amended success condition, written from the amended claim's
words: `ok` is false exactly on a transport error, a non-empty body that
is not JSON, a valid-JSON body that is not an object, or an object
containing an `error` field; an empty body is treated as the empty
object, so it succeeds. -/
def c9_amended_ok : RpcResponse → Bool
  | .transportError _ _ => false
  | .body .empty _ => true
  | .body (.notJson _) _ => false
  | .body (.jsonVal (.obj fields)) _ => !(jsonLookup fields kError).isSome
  | .body (.jsonVal _) _ => false

/-- C9 (amended): the prober's success flag agrees with `c9_amended_ok`
everywhere (so `ok=false` exactly on transport errors, non-empty
non-JSON bodies, valid-JSON non-object bodies, and objects with an
`error` field); the measured latency is reported in every case; on a
successful probe the payload is the object's `result` value (null when
absent), and an empty body yields the null payload. -/
theorem C9_prober (r : RpcResponse) :
    (rpc_post r).ok = c9_amended_ok r
    ∧ (rpc_post r).lat = resp_lat r
    ∧ (∀ fields lat, r = .body (.jsonVal (.obj fields)) lat →
        jsonLookup fields kError = none →
        (rpc_post r).payload = (jsonLookup fields kResult).getD Json.null)
    ∧ (∀ lat, r = .body .empty lat → (rpc_post r).payload = Json.null) := by
  refine ⟨?_, rpc_post_lat r, ?_, ?_⟩
  · rcases r with ⟨m, lat⟩ | ⟨c, lat⟩
    · rfl
    · rcases c with _ | t | j
      · rfl
      · rfl
      · rcases j with _ | b | n | q | s | elems | fields
        case obj =>
          cases hjl : jsonLookup fields kError with
          | none => simp [rpc_post, c9_amended_ok, hjl]
          | some e => simp [rpc_post, c9_amended_ok, hjl]
        all_goals rfl
  · intro fields lat hr hjl
    rw [hr]
    simp [rpc_post, hjl]
  · intro lat hr
    rw [hr]
    rfl

/-- Witness for C9 (amended): applied to a concrete transport failure,
whose flag the amended condition sets to false, and to a concrete empty
body, whose payload the theorem determines to be null. -/
theorem C9_prober_witness :
    ((rpc_post (RpcResponse.transportError ("boom") 5)).ok =
      c9_amended_ok (RpcResponse.transportError ("boom") 5)
    ∧ (rpc_post (RpcResponse.transportError ("boom") 5)).lat =
      resp_lat (RpcResponse.transportError ("boom") 5))
    ∧ (rpc_post (RpcResponse.body BodyContent.empty 7)).payload = Json.null :=
  ⟨⟨(C9_prober (RpcResponse.transportError ("boom") 5)).1,
    (C9_prober (RpcResponse.transportError ("boom") 5)).2.1⟩,
    (C9_prober (RpcResponse.body BodyContent.empty 7)).2.2.2 7 rfl⟩

end RollupRotator
